import Mathlib

/-!
Shallow embedding of the `sendemailapi` repository:
`src/app/api/send-completion-email/route.ts` (the main POST/OPTIONS handlers)
and `src/unnamed/part_000` (a variant POST handler sending two fixed emails).

The JavaScript handlers are pure request/response transformers once the
external effects (browser launch, page rendering, the provider `send` call)
are abstracted into an environment recording the outcome of each awaited
call.  The embedding tracks, alongside the HTTP response, the externally
observable events: whether a browser was launched, how many times
`browser.close()` was invoked, and with which arguments the provider's
`send` was called (if at all).
-/

namespace SendEmailApi

/-! ## Character classes of the JavaScript regexes -/

/-- JavaScript `\s` character class (WhiteSpace and LineTerminator
productions), used by the email regex, `subject.replace(/\s+/g, "_")` and
`String.prototype.trim`. -/
def jsWs (c : Char) : Bool :=
  c = ' ' || c = '\t' || c = '\n' || c = '\r' || c = '\x0b' || c = '\x0c' ||
  c.toNat = 0xa0 || c.toNat = 0x1680 ||
  (0x2000 ≤ c.toNat && c.toNat ≤ 0x200a) ||
  c.toNat = 0x2028 || c.toNat = 0x2029 || c.toNat = 0x202f ||
  c.toNat = 0x205f || c.toNat = 0x3000 || c.toNat = 0xfeff

/-- JavaScript `String.prototype.trim`: strip `\s` characters from both
ends (route.ts line 74, `e.trim()`). -/
def jsTrim (s : String) : String :=
  String.mk (((s.toList.dropWhile jsWs).reverse.dropWhile jsWs).reverse)

/-! ## The email regex `/^[^\s@]+@[^\s@]+\.[^\s@]+$/` (route.ts line 73) -/

/-- A character admissible in `[^\s@]`: neither whitespace nor `@`. -/
def emailChar (c : Char) : Bool := !jsWs c && c ≠ '@'

/-- Split a character list at its first `@`, if any. -/
def splitAtFirstAt : List Char → Option (List Char × List Char)
  | [] => none
  | c :: rest =>
    if c = '@' then some ([], rest)
    else (splitAtFirstAt rest).map (fun p => (c :: p.1, p.2))

/-- Over `c :: rest`, decides whether `rest` contains a `.` that is not its
last character (so that `[^\s@]+` can match nonempty text on both sides of
the dot inside the part after `@`). -/
def dotNotLast : List Char → Bool
  | [] => false
  | [_] => false
  | c :: rest => c = '.' || dotNotLast rest

/-- The part after `@` matches `[^\s@]+\.[^\s@]+`: all characters are
admissible and some `.` occurs at an interior position. -/
def validDomainPart (d : List Char) : Bool :=
  d.all emailChar &&
  (match d with
   | [] => false
   | _ :: rest => dotNotLast rest)

/-- Full-match semantics of `/^[^\s@]+@[^\s@]+\.[^\s@]+$/`: a nonempty
admissible local part, one `@`, and a domain part with an interior dot. -/
def emailRegexTest (s : String) : Bool :=
  match splitAtFirstAt s.toList with
  | none => false
  | some (l, d) => (l ≠ [] && l.all emailChar) && validDomainPart d

/-! ## Safe filename (route.ts lines 212-215) -/

/-- Characters kept by `subject.replace(/[^a-z0-9\s-]/gi, "")`: ASCII
alphanumerics, `\s` whitespace, and the hyphen. -/
def keepChar (c : Char) : Bool := c.isAlphanum || jsWs c || c = '-'

/-- Global replacement of `p`-runs by a single `_`
(`replace(/\s+/g, "_")` with `p` the whitespace class).  The boolean
accumulator remembers whether the previous character belonged to a run. -/
def collapseRunsAux (p : Char → Bool) : Bool → List Char → List Char
  | _, [] => []
  | inRun, c :: rest =>
    if p c then
      if inRun then collapseRunsAux p true rest
      else '_' :: collapseRunsAux p true rest
    else c :: collapseRunsAux p false rest

/-- Replace every maximal run of `p`-characters by one underscore. -/
def collapseRuns (p : Char → Bool) (l : List Char) : List Char :=
  collapseRunsAux p false l

/-- route.ts lines 212-215: sanitize the subject, collapse whitespace runs
to underscores, truncate to 50 characters, default to `"document"`. -/
def safeFilename (subject : String) : String :=
  let stem := String.mk ((collapseRuns jsWs (subject.toList.filter keepChar)).take 50)
  if stem = "" then "document" else stem

/-- route.ts line 221: the attachment's filename is the safe stem with the
`.pdf` extension appended. -/
def attachmentFilename (subject : String) : String :=
  safeFilename subject ++ ".pdf"

/-! ## Base64 (route.ts line 218, `Buffer.toString of base64`) -/

/-- The standard base64 alphabet. -/
def b64Alphabet : List Char :=
  "ABCDEFGHIJKLMNOPQRSTUVWXYZabcdefghijklmnopqrstuvwxyz0123456789+/".toList

/-- The base64 digit for a 6-bit value. -/
def b64Char (n : Nat) : Char := b64Alphabet.getD n 'A'

/-- Standard base64 encoding (with `=` padding) of a byte list. -/
def base64Encode : List Nat → List Char
  | [] => []
  | [b1] => [b64Char (b1 / 4 % 64), b64Char (b1 % 4 * 16), '=', '=']
  | [b1, b2] =>
    [b64Char (b1 / 4 % 64), b64Char (b1 % 4 * 16 + b2 / 16 % 16),
     b64Char (b2 % 16 * 4), '=']
  | b1 :: b2 :: b3 :: rest =>
    b64Char (b1 / 4 % 64) :: b64Char (b1 % 4 * 16 + b2 / 16 % 16) ::
    b64Char (b2 % 16 * 4 + b3 / 64 % 4) :: b64Char (b3 % 64) ::
    base64Encode rest

/-! ## Data model -/

/-- The destructured JSON request body (route.ts line 56).  The handler
reads only `email`, `subject`, `html` and `generatePdf`; `recipients`
models an extra JSON key the destructuring ignores.  String fields are
`Option String` (`none` = absent); `generatePdf` is modelled by its JS
truthiness. -/
structure Body where
  email : Option String := none
  subject : Option String := none
  html : Option String := none
  generatePdf : Bool := false
  recipients : Option String := none
deriving DecidableEq

/-- JS falsiness of an optional string field: absent or empty. -/
def strFalsy (o : Option String) : Bool := o.getD "" = ""

/-- An email attachment entry (route.ts lines 90-93): filename plus
base64-encoded content. -/
structure Attachment where
  filename : String
  content : String
deriving DecidableEq

/-- The argument object of `resend.emails.send` (route.ts lines 262-268).
`sendFrom`/`sendTo` model the `from`/`to` properties; `attachments = none`
models passing `undefined`. -/
structure SendArgs where
  sendFrom : String
  sendTo : List String
  subject : String
  html : String
  attachments : Option (List Attachment)
deriving DecidableEq

/-- The resolved value of `resend.emails.send`: `id` models `data?.id`,
`error` the provider-level error payload (as its JSON-stringified text). -/
structure SendResult where
  id : Option String := none
  error : Option String := none
deriving DecidableEq

/-- Outcomes of the awaited external calls.  `launch` is `getBrowser()`
(route.ts line 101); `pageRender` collapses the page pipeline
(newPage/setViewport/setContent/wait/pdf, lines 105-196) into either a
thrown error message or the produced byte buffer; `send` is the provider
call, either a thrown (transport) error or a resolved `SendResult`. -/
structure Env where
  launch : Except String Unit
  pageRender : Except String (List Nat)
  send : SendArgs → Except String SendResult

/-- The JSON HTTP response: status, headers, and the possible body fields
(absent fields are `none`). -/
structure Response where
  status : Nat
  headers : List (String × String)
  error : Option String := none
  details : Option String := none
  success : Option Bool := none
  emailSent : Option Bool := none
  pdfAttached : Option Bool := none
  emailId : Option String := none
  message : Option String := none
deriving DecidableEq

/-- Externally observable events of one handler invocation. -/
structure Events where
  browserLaunched : Bool := false
  closeCount : Nat := 0
  sendArgs : Option SendArgs := none
deriving DecidableEq

/-- No external call happened. -/
def noEvents : Events := {}

/-! ## The POST handler (route.ts lines 50-314) -/

/-- The fixed sender identity (route.ts line 263). -/
def fromAddress : String := "noreply@noreply.capitalflasher.com"

/-- The header set every POST response carries (route.ts lines 67, 85,
242, 287, 310). -/
def corsOnly : List (String × String) := [("Access-Control-Allow-Origin", "*")]

/-- route.ts lines 60-69: 400 response for missing fields. -/
def missingFieldsResponse : Response :=
  { status := 400, headers := corsOnly,
    error := some "Missing required fields",
    details := some "email, subject, and html are required" }

/-- route.ts lines 78-87: 400 response naming the invalid addresses. -/
def invalidEmailResponse (invalidEmails : List String) : Response :=
  { status := 400, headers := corsOnly,
    error := some "Invalid email format",
    details := some ("Invalid emails: " ++ String.intercalate ", " invalidEmails) }

/-- route.ts lines 235-244: 500 response of the PDF catch block. -/
def pdfFailureResponse (msg : String) : Response :=
  { status := 500, headers := corsOnly,
    error := some "Failed to generate PDF", details := some msg }

/-- route.ts lines 302-312: 500 response of the outer catch block
(production mode, so no `stack` field). -/
def sendFailureResponse (msg : String) : Response :=
  { status := 500, headers := corsOnly,
    error := some "Email send failed", details := some msg }

/-- route.ts lines 277-289: the 200 success response. -/
def successResponse (generatePdf : Bool) (emailId : Option String) : Response :=
  { status := 200, headers := corsOnly, success := some true,
    emailSent := some true, pdfAttached := some generatePdf,
    emailId := emailId, message := some "Email sent successfully" }

/-- JS `split(",")`: cut at every comma, keeping empty pieces; the
accumulator holds the current piece reversed. -/
def splitOnCommaAux : List Char → List Char → List String
  | [], acc => [String.mk acc.reverse]
  | c :: rest, acc =>
    if c = ',' then String.mk acc.reverse :: splitOnCommaAux rest []
    else splitOnCommaAux rest (c :: acc)

/-- JS `String.prototype.split` at `","` (so `"".split(",") = [""]` and
adjacent commas yield empty pieces). -/
def splitOnComma (s : String) : List String := splitOnCommaAux s.toList []

/-- route.ts line 74: `email.split(",").map(e => e.trim())`. -/
def recipientsOf (body : Body) : List String :=
  (splitOnComma (body.email.getD "")).map jsTrim

/-- route.ts line 75: the addresses failing the regex test. -/
def invalidOf (body : Body) : List String :=
  (recipientsOf body).filter (fun e => !emailRegexTest e)

/-- route.ts lines 99-251, inside `if (generatePdf)`: the try/catch/finally
around browser work.  Returns the outcome (attachment or thrown message),
whether the browser variable was assigned, and how many times
`browser.close()` ran by the end of the `finally` block.  When `launch`
fails the variable stays `null` and neither cleanup fires; when a later
step throws, the catch block closes once (line 232) and the finally block
closes again (line 248); on success only the finally block closes. -/
def renderPdf (env : Env) (subject : String) :
    Except String Attachment × Bool × Nat :=
  match env.launch with
  | .error msg => (.error msg, false, 0)
  | .ok _ =>
    match env.pageRender with
    | .error msg => (.error msg, true, 2)
    | .ok pdfBuffer =>
      if pdfBuffer.length = 0 then
        (.error "Generated PDF buffer is empty", true, 2)
      else if pdfBuffer.take 4 ≠ [37, 80, 68, 70] then
        (.error "Generated buffer is not a valid PDF", true, 2)
      else
        (.ok { filename := attachmentFilename subject,
               content := String.mk (base64Encode pdfBuffer) },
         true, 1)

/-- route.ts lines 90-252: the attachments list after the optional PDF
step, with the launch flag and close count. -/
def pdfPhase (env : Env) (subject : String) (generatePdf : Bool) :
    Except String (List Attachment) × Bool × Nat :=
  if generatePdf then
    match renderPdf env subject with
    | (.error msg, launched, closes) => (.error msg, launched, closes)
    | (.ok att, launched, closes) => (.ok [att], launched, closes)
  else (.ok [], false, 0)

/-- route.ts lines 254-313: the provider call and the outer catch.  A
thrown transport error, or a resolved result carrying a provider-level
`error` (rethrown at line 274 as `Resend API Error: ...`), lands in the
outer catch, which closes the still-non-null browser variable once more
(lines 295-297). -/
def sendPhase (env : Env) (emails : List String) (subject html : String)
    (generatePdf : Bool) (attachments : List Attachment)
    (launched : Bool) (closes : Nat) : Response × Events :=
  let args : SendArgs :=
    { sendFrom := fromAddress, sendTo := emails, subject := subject, html := html,
      attachments := if attachments.length > 0 then some attachments else none }
  match env.send args with
  | .error msg =>
    (sendFailureResponse msg,
     { browserLaunched := launched,
       closeCount := closes + (if launched then 1 else 0),
       sendArgs := some args })
  | .ok emailResult =>
    match emailResult.error with
    | some payload =>
      (sendFailureResponse ("Resend API Error: " ++ payload),
       { browserLaunched := launched,
         closeCount := closes + (if launched then 1 else 0),
         sendArgs := some args })
    | none =>
      (successResponse generatePdf emailResult.id,
       { browserLaunched := launched, closeCount := closes,
         sendArgs := some args })

/-- The POST handler, route.ts lines 50-314. -/
def POST (env : Env) (body : Body) : Response × Events :=
  if strFalsy body.email || strFalsy body.subject || strFalsy body.html then
    (missingFieldsResponse, noEvents)
  else if 0 < (invalidOf body).length then
    (invalidEmailResponse (invalidOf body), noEvents)
  else
    match pdfPhase env (body.subject.getD "") body.generatePdf with
    | (.error msg, launched, closes) =>
      (pdfFailureResponse msg,
       { browserLaunched := launched, closeCount := closes })
    | (.ok attachments, launched, closes) =>
      sendPhase env (recipientsOf body) (body.subject.getD "")
        (body.html.getD "") body.generatePdf attachments launched closes

/-! ## The OPTIONS handler (route.ts lines 317-330) -/

/-- The four headers of the preflight response. -/
def optionsHeaders : List (String × String) :=
  [("Access-Control-Allow-Origin", "*"),
   ("Access-Control-Allow-Methods", "POST, OPTIONS"),
   ("Access-Control-Allow-Headers", "Content-Type, Authorization"),
   ("Access-Control-Max-Age", "86400")]

/-- The OPTIONS handler: `NextResponse.json` of an empty object with status
200 and the full CORS header set. -/
def OPTIONS : Response := { status := 200, headers := optionsHeaders }

/-! ## The variant handler (src/unnamed/part_000) -/

/-- The variant's destructured body (part_000 line 8). -/
structure VariantBody where
  name : Option String := none
  email : Option String := none
  projectName : Option String := none
deriving DecidableEq

/-- Outcomes of the variant's two provider calls: to the admin
(part_000 lines 17-27) and to the client (lines 32-41). -/
structure VariantEnv where
  adminSend : Except String SendResult
  clientSend : Except String SendResult

/-- The variant's JSON response: the 200 body carries `success`,
`adminResult` and `clientResult` verbatim. -/
structure VariantResponse where
  status : Nat
  error : Option String := none
  success : Option Bool := none
  adminResult : Option SendResult := none
  clientResult : Option SendResult := none
deriving DecidableEq

/-- The variant POST handler (part_000 lines 6-55): missing-field check,
two sequential `resend.emails.send` awaits (a thrown error lands in the
catch and yields 500), then 200 with both results — their `error` fields
are never inspected. -/
def variantPOST (env : VariantEnv) (body : VariantBody) : VariantResponse :=
  if strFalsy body.name || strFalsy body.email || strFalsy body.projectName then
    { status := 400, error := some "Missing fields" }
  else
    match env.adminSend with
    | .error msg => { status := 500, error := some msg }
    | .ok adminResult =>
      match env.clientSend with
      | .error msg => { status := 500, error := some msg }
      | .ok clientResult =>
        { status := 200, success := some true,
          adminResult := some adminResult, clientResult := some clientResult }

/-! ## Concrete fixtures for witnesses and counterexamples -/

/-- An environment where every external call succeeds trivially. -/
def env0 : Env :=
  { launch := .ok (), pageRender := .ok [], send := fun _ => .ok {} }

/-- An environment whose render pipeline yields a well-formed PDF buffer
(`%PDF` magic then a newline) and whose provider call succeeds. -/
def goodPdfEnv : Env :=
  { launch := .ok (), pageRender := .ok [37, 80, 68, 70, 10],
    send := fun _ => .ok { id := some "em_1" } }

/-- An environment whose content-load step times out after the browser
launched. -/
def loadTimeoutEnv : Env :=
  { launch := .ok (), pageRender := .error "Navigation timeout of 30000 ms exceeded",
    send := fun _ => .ok {} }

/-- An environment whose provider call resolves but reports a
provider-level error payload. -/
def providerErrorEnv : Env :=
  { launch := .ok (), pageRender := .ok [37, 80, 68, 70, 10],
    send := fun _ => .ok { error := some "statusCode 403 validation_error" } }

/-- Scenario A request body, with the field name the handler reads. -/
def scenarioABody : Body :=
  { email := some "a@x.com", subject := some "Done", html := some "<p>hi</p>",
    generatePdf := false }

/-- A valid request body asking for PDF generation. -/
def pdfBody : Body :=
  { email := some "a@x.com", subject := some "Done", html := some "<p>hi</p>",
    generatePdf := true }

/-- A body carrying the section-6 schema field names: `recipients` instead
of the `email` field the handler actually destructures. -/
def schemaBody : Body :=
  { recipients := some "a@x.com", subject := some "Done", html := some "<p>hi</p>" }

/-- Characters kept by claim C7's wording: alphanumerics, spaces (only the
space character), and hyphens. -/
def claimKeep (c : Char) : Bool := c.isAlphanum || c = ' ' || c = '-'

/-- The filename algorithm exactly as claim C7 words it, for comparison
with `attachmentFilename`: remove characters outside alphanumerics,
spaces and hyphens, collapse each whitespace run to one underscore,
truncate to 50 characters, substitute "document" if empty, append
".pdf". -/
def claimFilename (subject : String) : String :=
  let stem := String.mk ((collapseRuns jsWs (subject.toList.filter claimKeep)).take 50)
  (if stem = "" then "document" else stem) ++ ".pdf"

/-- Dropping a prefix cannot lengthen a list. -/
theorem dropWhile_length_le (p : Char → Bool) (l : List Char) :
    (l.dropWhile p).length ≤ l.length := by
  induction l with
  | nil => simp
  | cons c rest ih =>
    by_cases hc : p c = true
    · rw [List.dropWhile_cons_of_pos hc]
      simp only [List.length_cons]
      omega
    · rw [List.dropWhile_cons_of_neg (by simpa using hc)]

/-- Run-collapsing phrased recursively on maximal runs, as the claim words
it: a whitespace character starts a run, the rest of the run is dropped,
and one underscore is emitted. -/
def collapseRunsSpec (p : Char → Bool) : List Char → List Char
  | [] => []
  | c :: rest =>
    if p c then '_' :: collapseRunsSpec p (rest.dropWhile p)
    else c :: collapseRunsSpec p rest
termination_by l => l.length
decreasing_by
  · simpa using Nat.lt_succ_of_le (dropWhile_length_le p rest)
  · simp

/-- The filename algorithm of the amended claim C7 ("spaces" widened to
"whitespace"): remove characters outside alphanumerics, whitespace and
hyphens, collapse each whitespace run to one underscore, truncate to 50
characters, substitute "document" if empty, append ".pdf". -/
def claimFilenameAmended (subject : String) : String :=
  let stem := String.mk
    ((collapseRunsSpec jsWs
        (subject.toList.filter (fun c => c.isAlphanum || jsWs c || c = '-'))).take 50)
  (if stem = "" then "document" else stem) ++ ".pdf"

/-- A variant-endpoint environment in which both provider calls resolve,
each carrying a provider-level error payload. -/
def variantEnvErr : VariantEnv :=
  { adminSend := .ok { error := some "daily quota exceeded" },
    clientSend := .ok { error := some "invalid recipient" } }

/-- A variant-endpoint request body with all required fields. -/
def variantBody0 : VariantBody :=
  { name := some "Ada", email := some "a@x.com", projectName := some "Site" }

/-! ## Helper lemmas about the phases -/

theorem renderPdf_error_closes (env : Env) (subject : String) (msg : String)
    (n : Nat) (hr : renderPdf env subject = (Except.error msg, true, n)) :
    n = 2 := by
  unfold renderPdf at hr
  split at hr
  · exact Bool.noConfusion (congrArg (fun t => t.2.1) hr)
  · split at hr
    · exact (congrArg (fun t => t.2.2) hr).symm
    · split at hr
      · exact (congrArg (fun t => t.2.2) hr).symm
      · split at hr
        · exact (congrArg (fun t => t.2.2) hr).symm
        · exact Except.noConfusion (congrArg (fun t => t.1) hr)

theorem renderPdf_ok_closes (env : Env) (subject : String) (att : Attachment)
    (l : Bool) (n : Nat) (hr : renderPdf env subject = (Except.ok att, l, n)) :
    l = true ∧ n = 1 := by
  unfold renderPdf at hr
  split at hr
  · exact Except.noConfusion (congrArg (fun t => t.1) hr)
  · split at hr
    · exact Except.noConfusion (congrArg (fun t => t.1) hr)
    · split at hr
      · exact Except.noConfusion (congrArg (fun t => t.1) hr)
      · split at hr
        · exact Except.noConfusion (congrArg (fun t => t.1) hr)
        · exact ⟨(congrArg (fun t => t.2.1) hr).symm,
                 (congrArg (fun t => t.2.2) hr).symm⟩

theorem pdfPhase_error_closes (env : Env) (subject : String) (gen : Bool)
    (msg : String) (n : Nat)
    (hp : pdfPhase env subject gen = (Except.error msg, true, n)) : n = 2 := by
  unfold pdfPhase at hp
  split at hp
  · rcases hr : renderPdf env subject with ⟨r, l2, n2⟩
    rw [hr] at hp
    cases r with
    | error m =>
      have hm : m = msg := by
        have h1 := congrArg (fun t => t.1) hp
        simpa using h1
      have hl : l2 = true := congrArg (fun t => t.2.1) hp
      have hn : n2 = n := congrArg (fun t => t.2.2) hp
      have h2 : n2 = 2 :=
        renderPdf_error_closes env subject m n2 (by rw [hr, hl])
      omega
    | ok a => exact Except.noConfusion (congrArg (fun t => t.1) hp)
  · exact Except.noConfusion (congrArg (fun t => t.1) hp)

theorem pdfPhase_ok_closes (env : Env) (subject : String) (gen : Bool)
    (atts : List Attachment) (n : Nat)
    (hp : pdfPhase env subject gen = (Except.ok atts, true, n)) : n = 1 := by
  unfold pdfPhase at hp
  split at hp
  · rcases hr : renderPdf env subject with ⟨r, l2, n2⟩
    rw [hr] at hp
    cases r with
    | error m => exact Except.noConfusion (congrArg (fun t => t.1) hp)
    | ok a =>
      have hl : l2 = true := congrArg (fun t => t.2.1) hp
      have hn : n2 = n := congrArg (fun t => t.2.2) hp
      have h2 := renderPdf_ok_closes env subject a l2 n2 hr
      omega
  · have hn : (0 : Nat) = n := congrArg (fun t => t.2.2) hp
    have hl : false = true := congrArg (fun t => t.2.1) hp
    exact Bool.noConfusion hl

theorem sendPhase_browserLaunched (env : Env) (emails : List String)
    (subject html : String) (gen : Bool) (atts : List Attachment)
    (launched : Bool) (closes : Nat) :
    (sendPhase env emails subject html gen atts launched closes).2.browserLaunched
      = launched := by
  unfold sendPhase
  dsimp only
  split
  · rfl
  · split
    · rfl
    · rfl

theorem sendPhase_closeCount (env : Env) (emails : List String)
    (subject html : String) (gen : Bool) (atts : List Attachment)
    (launched : Bool) (closes : Nat) :
    (sendPhase env emails subject html gen atts launched closes).2.closeCount =
      if (sendPhase env emails subject html gen atts launched closes).1.status = 200
      then closes else closes + (if launched then 1 else 0) := by
  unfold sendPhase
  dsimp only
  split
  · simp [sendFailureResponse]
  · rename_i er heq
    rcases er with ⟨rid, rerr⟩
    rcases rerr with _ | payload
    · simp [successResponse]
    · simp [sendFailureResponse]

theorem sendPhase_sendArgs (env : Env) (emails : List String)
    (subject html : String) (gen : Bool) (atts : List Attachment)
    (launched : Bool) (closes : Nat) :
    (sendPhase env emails subject html gen atts launched closes).2.sendArgs =
      some { sendFrom := fromAddress, sendTo := emails, subject := subject,
             html := html,
             attachments := if atts.length > 0 then some atts else none } := by
  unfold sendPhase
  dsimp only
  split
  · rfl
  · split
    · rfl
    · rfl

theorem sendPhase_headers (env : Env) (emails : List String)
    (subject html : String) (gen : Bool) (atts : List Attachment)
    (launched : Bool) (closes : Nat) :
    (sendPhase env emails subject html gen atts launched closes).1.headers
      = corsOnly := by
  unfold sendPhase
  dsimp only
  split
  · rfl
  · rename_i er heq
    rcases er with ⟨rid, rerr⟩
    rcases rerr with _ | payload
    · rfl
    · rfl

theorem sendPhase_error_values (env : Env) (emails : List String)
    (subject html : String) (gen : Bool) (atts : List Attachment)
    (launched : Bool) (closes : Nat) :
    (sendPhase env emails subject html gen atts launched closes).1.error
        = some "Email send failed" ∨
    (sendPhase env emails subject html gen atts launched closes).1.error = none := by
  unfold sendPhase
  dsimp only
  split
  · left; rfl
  · split
    · left; rfl
    · right; rfl

/-! ## Claim theorems -/

/-- Claim C1 counterexample: on the content-load-timeout path a browser was
launched and `browser.close()` is invoked twice — once by the PDF catch
block (route.ts line 232) and once more by the finally block (line 248) —
refuting closure exactly once. -/
theorem C1_counterexample :
    (POST loadTimeoutEnv pdfBody).2.browserLaunched = true ∧
    (POST loadTimeoutEnv pdfBody).2.closeCount = 2 := ⟨rfl, rfl⟩

/-- Claim C1 amended: on every execution path through the PDF-rendering
step in which a browser instance was launched, `browser.close()` is
invoked exactly once when the handler returns the 200 success response,
and exactly twice on every failure path (the catch/finally pair, or the
finally plus the outer catch, each close the instance). -/
theorem C1_amended_close_count (env : Env) (body : Body)
    (h : (POST env body).2.browserLaunched = true) :
    (POST env body).2.closeCount =
      if (POST env body).1.status = 200 then 1 else 2 := by
  unfold POST at h ⊢
  by_cases h1 : (strFalsy body.email || strFalsy body.subject || strFalsy body.html) = true
  · rw [if_pos h1] at h
    simp [noEvents] at h
  · rw [if_neg h1] at h ⊢
    by_cases h2 : 0 < (invalidOf body).length
    · rw [if_pos h2] at h
      simp [noEvents] at h
    · rw [if_neg h2] at h ⊢
      rcases hp : pdfPhase env (body.subject.getD "") body.generatePdf
        with ⟨r, launched, closes⟩
      rw [hp] at h
      cases r with
      | error msg =>
        dsimp only at h ⊢
        subst h
        rw [pdfPhase_error_closes env (body.subject.getD "") body.generatePdf msg closes hp]
        simp [pdfFailureResponse]
      | ok atts =>
        dsimp only at h ⊢
        rw [sendPhase_browserLaunched] at h
        subst h
        have hc : closes = 1 :=
          pdfPhase_ok_closes env (body.subject.getD "") body.generatePdf atts closes hp
        subst hc
        rw [sendPhase_closeCount]
        split
        · rfl
        · rfl

/-- Witness for C1 at the fully successful concrete path: browser
launched, 200 returned, one close. -/
theorem C1_witness :
    (POST goodPdfEnv pdfBody).2.closeCount =
      if (POST goodPdfEnv pdfBody).1.status = 200 then 1 else 2 :=
  C1_amended_close_count goodPdfEnv pdfBody rfl

/-- Claim C2: for every request with `generatePdf` set whose rendering step
fails (for any reason, including the content-load timeout), the POST
handler returns HTTP 500 with error "Failed to generate PDF" and a
`details` field carrying the underlying cause, and the provider's send
operation is never invoked. -/
theorem C2_render_failure_aborts (env : Env) (body : Body) (msg : String)
    (he : strFalsy body.email = false) (hs : strFalsy body.subject = false)
    (hh : strFalsy body.html = false)
    (hinv : (invalidOf body).length = 0)
    (hgen : body.generatePdf = true)
    (hfail : (renderPdf env (body.subject.getD "")).1 = Except.error msg) :
    (POST env body).1.status = 500 ∧
    (POST env body).1.error = some "Failed to generate PDF" ∧
    (POST env body).1.details = some msg ∧
    (POST env body).2.sendArgs = none := by
  unfold POST
  rcases hr : renderPdf env (body.subject.getD "") with ⟨r, launched, closes⟩
  rw [hr] at hfail
  simp only at hfail
  subst hfail
  simp [he, hs, hh, hinv, pdfPhase, hgen, hr, pdfFailureResponse]

/-- Witness for C2 at a concrete load-timeout environment. -/
theorem C2_witness :
    (POST loadTimeoutEnv pdfBody).1.status = 500 ∧
    (POST loadTimeoutEnv pdfBody).1.error = some "Failed to generate PDF" ∧
    (POST loadTimeoutEnv pdfBody).1.details =
      some "Navigation timeout of 30000 ms exceeded" ∧
    (POST loadTimeoutEnv pdfBody).2.sendArgs = none :=
  C2_render_failure_aborts loadTimeoutEnv pdfBody _ rfl rfl rfl (by decide) rfl rfl

/-- Claim C3: for every request that passes validation, if the provider's
send call resolves with a result whose `error` field is set, the handler
returns HTTP 500 with error "Email send failed" and a `details` field
including the provider's structured error payload, and does not return the
200 success response. -/
theorem C3_provider_error_surfaced (env : Env) (body : Body)
    (res : SendResult) (payload : String) (atts : List Attachment)
    (he : strFalsy body.email = false) (hs : strFalsy body.subject = false)
    (hh : strFalsy body.html = false)
    (hinv : (invalidOf body).length = 0)
    (hpdf : (pdfPhase env (body.subject.getD "") body.generatePdf).1 = Except.ok atts)
    (hsend : ∀ a, env.send a = Except.ok res)
    (herr : res.error = some payload) :
    (POST env body).1.status = 500 ∧
    (POST env body).1.error = some "Email send failed" ∧
    (POST env body).1.details = some ("Resend API Error: " ++ payload) ∧
    (POST env body).1.success = none := by
  unfold POST
  rcases hp : pdfPhase env (body.subject.getD "") body.generatePdf with ⟨r, launched, closes⟩
  rw [hp] at hpdf
  simp only at hpdf
  subst hpdf
  simp [he, hs, hh, hinv, hp, sendPhase, hsend, herr, sendFailureResponse]

/-- Witness for C3 at a concrete provider-level error. -/
theorem C3_witness :
    (POST providerErrorEnv scenarioABody).1.status = 500 ∧
    (POST providerErrorEnv scenarioABody).1.error = some "Email send failed" ∧
    (POST providerErrorEnv scenarioABody).1.details =
      some "Resend API Error: statusCode 403 validation_error" ∧
    (POST providerErrorEnv scenarioABody).1.success = none :=
  C3_provider_error_surfaced providerErrorEnv scenarioABody
    { error := some "statusCode 403 validation_error" }
    "statusCode 403 validation_error" []
    rfl rfl rfl (by decide) rfl (fun _ => rfl) rfl

/-- Claim C4: for every recipients string that, after splitting on commas
and trimming, contains at least one address failing the syntactic pattern,
the handler returns HTTP 400 with error "Invalid email format" and a
`details` field naming every invalid entry, and no external call is
made. -/
theorem C4_invalid_emails_all_reported (env : Env) (body : Body)
    (he : strFalsy body.email = false) (hs : strFalsy body.subject = false)
    (hh : strFalsy body.html = false)
    (hinv : 0 < (invalidOf body).length) :
    (POST env body).1.status = 400 ∧
    (POST env body).1.error = some "Invalid email format" ∧
    (POST env body).1.details =
      some ("Invalid emails: " ++ String.intercalate ", " (invalidOf body)) ∧
    (POST env body).2 = noEvents ∧
    ∀ e, e ∈ recipientsOf body → emailRegexTest e = false → e ∈ invalidOf body := by
  have h1 : (strFalsy body.email || strFalsy body.subject || strFalsy body.html) = false := by
    rw [he, hs, hh]; rfl
  unfold POST
  rw [h1, if_neg Bool.false_ne_true, if_pos hinv]
  refine ⟨rfl, rfl, rfl, rfl, fun e hmem hfail => ?_⟩
  simp [invalidOf, List.mem_filter, hmem, hfail]

/-- Witness for C4: two invalid entries among three, both reported. -/
theorem C4_witness :
    (POST env0 { scenarioABody with email := some "bad, a@x.com, also bad" }).1.status = 400 ∧
    (POST env0 { scenarioABody with email := some "bad, a@x.com, also bad" }).1.details =
      some "Invalid emails: bad, also bad" :=
  have h := C4_invalid_emails_all_reported env0
    { scenarioABody with email := some "bad, a@x.com, also bad" }
    rfl rfl rfl (by decide)
  ⟨h.1, by rw [h.2.2.1]; decide⟩

/-- Claim C5: an attachment is appended only when the rendered binary is
non-empty and its first four bytes are the PDF magic marker `%PDF`
(bytes 37, 80, 68, 70); a zero-length or wrongly-headed binary yields no
attachment and HTTP 500 "Failed to generate PDF". -/
theorem C5_magic_number_gate (env : Env) (body : Body) (buf : List Nat)
    (he : strFalsy body.email = false) (hs : strFalsy body.subject = false)
    (hh : strFalsy body.html = false)
    (hinv : (invalidOf body).length = 0)
    (hgen : body.generatePdf = true)
    (hlaunch : env.launch = Except.ok ())
    (hrender : env.pageRender = Except.ok buf) :
    (0 < buf.length ∧ buf.take 4 = [37, 80, 68, 70] →
      Option.map SendArgs.attachments (POST env body).2.sendArgs =
        some (some [{ filename := attachmentFilename (body.subject.getD ""),
                      content := String.mk (base64Encode buf) }])) ∧
    (buf.length = 0 ∨ buf.take 4 ≠ [37, 80, 68, 70] →
      (POST env body).1.status = 500 ∧
      (POST env body).1.error = some "Failed to generate PDF" ∧
      (POST env body).2.sendArgs = none) := by
  have h1 : (strFalsy body.email || strFalsy body.subject || strFalsy body.html)
      = false := by
    rw [he, hs, hh]; rfl
  have h2 : ¬ 0 < (invalidOf body).length := by omega
  unfold POST pdfPhase renderPdf
  rw [h1, if_neg Bool.false_ne_true, if_neg h2, hgen, if_pos rfl, hlaunch, hrender]
  dsimp only
  constructor
  · rintro ⟨hlen, hmagic⟩
    rw [if_neg (by omega), if_neg (by simp [hmagic])]
    dsimp only
    rw [sendPhase_sendArgs]
    rfl
  · rintro (hlen | hmagic)
    · rw [if_pos hlen]
      exact ⟨rfl, rfl, rfl⟩
    · by_cases hlen : buf.length = 0
      · rw [if_pos hlen]
        exact ⟨rfl, rfl, rfl⟩
      · rw [if_neg hlen, if_pos hmagic]
        exact ⟨rfl, rfl, rfl⟩

/-- Witness for C5 at a concrete well-formed buffer: the attachment carries
the sanitized filename and the base64 payload. -/
theorem C5_witness :
    Option.map SendArgs.attachments (POST goodPdfEnv pdfBody).2.sendArgs =
      some (some [{ filename := "Done.pdf", content := "JVBERgo=" }]) := by
  have h := C5_magic_number_gate goodPdfEnv pdfBody [37, 80, 68, 70, 10]
    rfl rfl rfl (by decide) rfl rfl rfl
  exact (h.1 (by decide)).trans (by decide)

/-- Claim C6 counterexample: a payload supplying the three required values
under the section-6 schema names (recipients, subject, html) does not pass
the missing-field check — the handler destructures `email`, finds it
absent, and returns 400. -/
theorem C6_counterexample :
    (POST env0 schemaBody).1.status = 400 ∧
    (POST env0 schemaBody).1.error = some "Missing required fields" := ⟨rfl, rfl⟩

/-- Claim C6 amended: the required request fields are email, subject and
html (the handler's details string names exactly these); a payload in
which any of them is absent or empty gets HTTP 400 "Missing required
fields" with no external call, and a payload supplying all three
non-empty passes the missing-field check. -/
theorem C6_amended_required_fields (env : Env) (body : Body) :
    ((strFalsy body.email || strFalsy body.subject || strFalsy body.html) = true →
      POST env body = (missingFieldsResponse, noEvents)) ∧
    ((strFalsy body.email || strFalsy body.subject || strFalsy body.html) = false →
      (POST env body).1.error ≠ some "Missing required fields") := by
  constructor
  · intro h
    unfold POST
    rw [if_pos h]
  · intro h hcontra
    unfold POST at hcontra
    rw [h, if_neg Bool.false_ne_true] at hcontra
    by_cases h2 : 0 < (invalidOf body).length
    · rw [if_pos h2] at hcontra
      simp [invalidEmailResponse] at hcontra
    · rw [if_neg h2] at hcontra
      rcases hp : pdfPhase env (body.subject.getD "") body.generatePdf
        with ⟨r, launched, closes⟩
      rw [hp] at hcontra
      cases r with
      | error msg => simp [pdfFailureResponse] at hcontra
      | ok atts =>
        dsimp only at hcontra
        rcases sendPhase_error_values env (recipientsOf body) (body.subject.getD "")
          (body.html.getD "") body.generatePdf atts launched closes with hv | hv <;>
          rw [hv] at hcontra <;> simp at hcontra

/-- Witness for C6: a body missing `email` is rejected, scenario A's body
(with the `email` field) passes the missing-field check. -/
theorem C6_witness :
    POST env0 { scenarioABody with email := none } = (missingFieldsResponse, noEvents) ∧
    (POST env0 scenarioABody).1.error ≠ some "Missing required fields" :=
  ⟨(C6_amended_required_fields env0 { scenarioABody with email := none }).1 rfl,
   (C6_amended_required_fields env0 scenarioABody).2 rfl⟩

/-- Equivalence of the accumulator formulation of run-collapsing (the
regex-replace translation) with the maximal-run recursion. -/
theorem collapseRunsAux_eq_spec (p : Char → Bool) (l : List Char) :
    collapseRunsAux p false l = collapseRunsSpec p l ∧
    collapseRunsAux p true l = collapseRunsSpec p (l.dropWhile p) := by
  induction l with
  | nil =>
    exact ⟨by rw [collapseRunsAux, collapseRunsSpec],
           by rw [collapseRunsAux, List.dropWhile_nil, collapseRunsSpec]⟩
  | cons c rest ih =>
    by_cases hc : p c = true
    · constructor
      · rw [show collapseRunsAux p false (c :: rest)
              = '_' :: collapseRunsAux p true rest by simp [collapseRunsAux, hc]]
        rw [show collapseRunsSpec p (c :: rest)
              = '_' :: collapseRunsSpec p (rest.dropWhile p) by
            rw [collapseRunsSpec]; rw [if_pos hc]]
        rw [ih.2]
      · rw [show collapseRunsAux p true (c :: rest)
              = collapseRunsAux p true rest by simp [collapseRunsAux, hc]]
        rw [List.dropWhile_cons_of_pos hc]
        exact ih.2
    · have hc2 : p c = false := by simpa using hc
      constructor
      · rw [show collapseRunsAux p false (c :: rest)
              = c :: collapseRunsAux p false rest by simp [collapseRunsAux, hc2]]
        rw [show collapseRunsSpec p (c :: rest)
              = c :: collapseRunsSpec p rest by
            rw [collapseRunsSpec]; rw [if_neg (by simp [hc2])]]
        rw [ih.1]
      · rw [show collapseRunsAux p true (c :: rest)
              = c :: collapseRunsAux p false rest by simp [collapseRunsAux, hc2]]
        rw [List.dropWhile_cons_of_neg (by simp [hc2])]
        rw [show collapseRunsSpec p (c :: rest)
              = c :: collapseRunsSpec p rest by
            rw [collapseRunsSpec]; rw [if_neg (by simp [hc2])]]
        rw [ih.1]

/-- Claim C7 counterexample: for the subject "a⟨tab⟩b" the code-derived
filename is "a_b.pdf" (the sanitizer keeps every whitespace character,
which the collapse step then turns into an underscore) while the claim's
algorithm removes the tab as "outside alphanumerics, spaces, and hyphens"
and yields "ab.pdf". -/
theorem C7_counterexample :
    attachmentFilename "a\tb" ≠ claimFilename "a\tb" ∧
    attachmentFilename "a\tb" = "a_b.pdf" ∧
    claimFilename "a\tb" = "ab.pdf" := by
  refine ⟨?_, by decide, by decide⟩
  decide

/-- Claim C7 amended: for every subject string, the derived attachment
filename is computed by removing all characters outside alphanumerics,
whitespace, and hyphens, collapsing each run of whitespace to a single
underscore, truncating to at most 50 characters, substituting "document"
if the result is empty, and appending ".pdf". -/
theorem C7_amended_filename (subject : String) :
    attachmentFilename subject = claimFilenameAmended subject := by
  simp only [attachmentFilename, safeFilename, claimFilenameAmended, collapseRuns]
  rw [(collapseRunsAux_eq_spec jsWs (subject.toList.filter keepChar)).1]
  rfl

/-- Claim C8 counterexample: the request quoted by the claim supplies the
recipient under the JSON key `recipients`; the handler destructures
`email`, finds it missing, and returns 400 instead of the claimed
200/emailSent:true. -/
theorem C8_counterexample :
    (POST env0 schemaBody).1.status = 400 ∧
    (POST env0 schemaBody).1.emailSent = none ∧
    (POST env0 schemaBody).2.sendArgs = none := ⟨rfl, rfl, rfl⟩

/-- Claim C8 amended: for every request in which all recipient addresses
are syntactically valid and `generatePdf` is false, no browser is launched
and the provider's send is called with `attachments` set to undefined; the
scenario-A request with the recipient supplied under the handler's `email`
field yields 200 with emailSent:true and pdfAttached:false when the
provider reports success. -/
theorem C8_amended_no_render_path (env : Env) (body : Body) (res : SendResult)
    (he : strFalsy body.email = false) (hs : strFalsy body.subject = false)
    (hh : strFalsy body.html = false)
    (hinv : (invalidOf body).length = 0)
    (hgen : body.generatePdf = false)
    (hsend : ∀ a, env.send a = Except.ok res)
    (hres : res.error = none) :
    (POST env body).2.browserLaunched = false ∧
    (POST env body).2.closeCount = 0 ∧
    Option.map SendArgs.attachments (POST env body).2.sendArgs = some none ∧
    (POST env body).1.status = 200 ∧
    (POST env body).1.emailSent = some true ∧
    (POST env body).1.pdfAttached = some false := by
  have h1 : (strFalsy body.email || strFalsy body.subject || strFalsy body.html)
      = false := by
    rw [he, hs, hh]; rfl
  have h2 : ¬ 0 < (invalidOf body).length := by omega
  unfold POST pdfPhase sendPhase
  rw [h1, if_neg Bool.false_ne_true, if_neg h2, hgen, if_neg Bool.false_ne_true]
  dsimp only
  rw [hsend]
  dsimp only
  rw [hres]
  exact ⟨rfl, rfl, rfl, rfl, rfl, rfl⟩

/-- Witness for C8: scenario A with the handler's field name. -/
theorem C8_witness :
    (POST env0 scenarioABody).2.browserLaunched = false ∧
    (POST env0 scenarioABody).2.closeCount = 0 ∧
    Option.map SendArgs.attachments (POST env0 scenarioABody).2.sendArgs = some none ∧
    (POST env0 scenarioABody).1.status = 200 ∧
    (POST env0 scenarioABody).1.emailSent = some true ∧
    (POST env0 scenarioABody).1.pdfAttached = some false :=
  C8_amended_no_render_path env0 scenarioABody {} rfl rfl rfl (by decide) rfl
    (fun _ => rfl) rfl

/-- Claim C9 counterexample: the POST handler's 200 success response does
not carry the Access-Control-Allow-Methods header the claim requires on
every response — POST responses carry only Access-Control-Allow-Origin. -/
theorem C9_counterexample :
    (POST env0 scenarioABody).1.status = 200 ∧
    ("Access-Control-Allow-Methods", "POST, OPTIONS") ∉
      (POST env0 scenarioABody).1.headers := by
  refine ⟨rfl, ?_⟩
  decide

/-- Claim C9 amended: every POST response carries exactly the permissive
Access-Control-Allow-Origin: * header (and no other CORS headers), while
the OPTIONS preflight returns HTTP 200 with the full set — origin *,
methods POST/OPTIONS, allowed headers Content-Type and Authorization, and
the 86400-second cache directive — and an empty JSON body. -/
theorem C9_amended_cors_headers :
    (∀ env body, (POST env body).1.headers = corsOnly) ∧
    OPTIONS.status = 200 ∧
    OPTIONS.headers = optionsHeaders ∧
    OPTIONS.error = none ∧ OPTIONS.details = none ∧ OPTIONS.success = none ∧
    OPTIONS.emailSent = none ∧ OPTIONS.pdfAttached = none ∧
    OPTIONS.emailId = none ∧ OPTIONS.message = none := by
  refine ⟨?_, rfl, rfl, rfl, rfl, rfl, rfl, rfl, rfl, rfl⟩
  intro env body
  unfold POST
  split
  · rfl
  · split
    · rfl
    · rcases hp : pdfPhase env (body.subject.getD "") body.generatePdf
        with ⟨r, launched, closes⟩
      cases r with
      | error msg => rfl
      | ok atts =>
        exact sendPhase_headers env (recipientsOf body) (body.subject.getD "")
          (body.html.getD "") body.generatePdf atts launched closes

/-- Claim C10: in the variant endpoint, whenever both provider send calls
resolve without throwing, the handler returns HTTP 200 with success:true
and embeds both results verbatim — the `error` fields of adminResult and
clientResult are never inspected, so a provider-reported failure does not
change the success response. -/
theorem C10_variant_ignores_provider_errors (env : VariantEnv)
    (body : VariantBody) (a c : SendResult)
    (hn : strFalsy body.name = false) (he : strFalsy body.email = false)
    (hp : strFalsy body.projectName = false)
    (ha : env.adminSend = Except.ok a) (hc : env.clientSend = Except.ok c) :
    variantPOST env body =
      { status := 200, success := some true,
        adminResult := some a, clientResult := some c } := by
  have h1 : (strFalsy body.name || strFalsy body.email || strFalsy body.projectName)
      = false := by
    rw [hn, he, hp]; rfl
  unfold variantPOST
  rw [h1, if_neg Bool.false_ne_true, ha, hc]

/-- Witness for C10: both provider results carry error payloads; the
variant handler still answers 200 with success:true. -/
theorem C10_witness :
    variantPOST variantEnvErr variantBody0 =
      { status := 200, success := some true,
        adminResult := some { error := some "daily quota exceeded" },
        clientResult := some { error := some "invalid recipient" } } :=
  C10_variant_ignores_provider_errors variantEnvErr variantBody0
    { error := some "daily quota exceeded" } { error := some "invalid recipient" }
    rfl rfl rfl rfl rfl

end SendEmailApi
